import Mathlib

/-!
Verification of the Network Provisioning & Connectivity Supervisor of the
esp32-wake-word-detection firmware.

The definitions below are a shallow embedding of the relevant C++ sources:

* `Store`, `has_stored_wifi`, `clear_stored_wifi`
  — NVS namespace "wifi" and `has_stored_wifi` / `clear_stored_wifi`
    (lib/bluetooth-provisioning/src/bluetooth_provisioning.cpp, lines 208-239).
    `nvs_get_str` reports the byte size of the stored value *including* the
    terminating NUL, so the size of a stored string `s` is `s.utf8ByteSize + 1`.
* `Json`, `getObjectItem`, `getObjectItemCaseSensitive`, `cJSON_IsString`,
  `cJSON_IsNumber`, `doubleToValueint`
  — results of cJSON parsing as seen by the handlers.  `cJSON_Parse` itself is
    external library code; a request body is therefore modelled as the parse
    result `Option Json` (`none` = parse failed / no data).  `cJSON_GetObjectItem`
    compares keys case-insensitively (ASCII tolower, as in cJSON's
    case_insensitive_strcmp); the CaseSensitive variant compares exactly.
    `valueint` of a parsed number is the double truncated toward zero and
    saturated at INT_MAX / INT_MIN; number values are modelled as rationals
    (IEEE rounding of decimal literals is not modelled; no claim below depends
    on it).
* `WifiEnv`, `test_wifi_connection`
  — `test_wifi_connection` (bluetooth_provisioning.cpp, lines 534-570): sets the
    station config, calls `esp_wifi_connect`, then polls the global
    `wifi_configured` flag every 100 ms for up to 10000 ms.  The environment
    supplies the flag value at handler entry and the time (if any) at which the
    pending connect obtains an IP (the event handler at lines 186-191 sets
    `wifi_configured` on IP_EVENT_STA_GOT_IP).
* `connect_handler` — the POST /connect handler (lines 314-399); its output
  records the response, the credential store after the request, and whether a
  connection attempt (`esp_wifi_connect`) was made.
* `scan_handler` — the GET /scan handler (lines 249-311).
* `cJSON_PrintFlatObject` and friends — the formatted printer `cJSON_Print` of
  the bundled cJSON library (external to this repository), modelled for the
  document shapes this firmware builds: a flat object, and one object holding
  one array of flat objects.  `cJSON_Print` (unlike `cJSON_PrintUnformatted`)
  emits a newline after every opening brace, one tab per nesting level before
  each key, a tab after each colon, and a newline after each entry; array items
  are separated by a comma and a space.  Number rendering (cJSON's %g-style
  double formatting) is kept abstract as a digit string.
* `handleConfigMessage`, `mqtt_config_callback`, `onConfigMessage`
  — MQTTManager::handleConfigMessage (lib/mqtt-manager/src/MQTTManager.cpp,
    lines 169-208) and the callback in src/main.cpp (lines 46-53) that copies
    both fields into the globals `recording_duration` / `detection_threshold`.
* `publishAlert`, `publishAlertPayload` — MQTTManager::publishAlert
  (MQTTManager.cpp, lines 88-108), which prints the alert object with
  `cJSON_Print`.
* `wifi_event_cb`, `ip_event_cb`, `linkStep`, `linkRun`
  — the WiFiManager event callbacks (lib/wifi-manager/src/WiFiManager.cpp,
    lines 10-89): a bounded low-level reconnect on STA_DISCONNECTED
    (`WIFI_RETRY_ATTEMPT` = 3) and the retry-counter reset on GOT_IP / GOT_IP6.
* `storedConnectGo`, `setup_connectivity`, `app_main_connectivity`, `bootMode`
  — the supervisor logic of src/main.cpp: the stored-credentials retry loop
    (lines 84-111, 5 attempts with a 3000 ms wait between consecutive
    attempts), and the failure path of app_main (lines 152-164:
    clear_stored_wifi, start_wifi_ap_provisioning, esp_restart).  The body of
    `WiFiManager::connectWithStoredCredentials` is declared but not present in
    the sources, so the outcome of each attempt is an oracle parameter.
    `start_wifi_ap_provisioning` (bluetooth_provisioning.cpp, lines 417-524)
    blocks until a successful POST /connect has set `wifi_configured`; that same
    request's handler stored the operator's ssid/password, so the store after
    provisioning completes holds the operator's credentials.
* `stop_provisioning_server` — bluetooth_provisioning.cpp, lines 526-532.
-/

set_option maxRecDepth 10000

namespace WWD

/-! ## Credential store (NVS namespace "wifi") -/

/-- The persisted record of the NVS "wifi" namespace: the values stored under
the keys "ssid" and "password" (`none` if the key or namespace is absent, or
the store cannot be opened). -/
structure Store where
  ssid : Option String
  password : Option String
deriving DecidableEq

/-- The `required_size` reported by `nvs_get_str` for a stored string: its byte
length plus one for the terminating NUL. -/
def requiredSizeOf (s : String) : Nat := s.utf8ByteSize + 1

/-- `has_stored_wifi` (bluetooth_provisioning.cpp:208-228): open the "wifi"
namespace read-only, query the size of the "ssid" value, and report
`err == ESP_OK && required_size > 1`. -/
def has_stored_wifi (st : Store) : Bool :=
  match st.ssid with
  | none => false
  | some s => decide (1 < requiredSizeOf s)

/-- `clear_stored_wifi` (bluetooth_provisioning.cpp:230-239): `nvs_erase_all`
on the "wifi" namespace erases both keys. -/
def clear_stored_wifi (_ : Store) : Store := ⟨none, none⟩

/-! ## cJSON parse results -/

/-- A parsed cJSON value, as inspected by the handlers. -/
inductive Json where
  | str (s : String)
  | num (q : ℚ)
  | boolean (b : Bool)
  | obj (fields : List (String × Json))
  | arr (items : List Json)
  | null

/-- ASCII tolower on a code point, as used by cJSON's
case_insensitive_strcmp. -/
def asciiLowerNat (n : Nat) : Nat := if 65 ≤ n ∧ n ≤ 90 then n + 32 else n

/-- Case-insensitive (ASCII) equality of two character lists. -/
def ciEqChars : List Char → List Char → Bool
  | [], [] => true
  | c :: cs, d :: ds => (asciiLowerNat c.toNat == asciiLowerNat d.toNat) && ciEqChars cs ds
  | _, _ => false

/-- Case-insensitive (ASCII) string equality. -/
def ciEq (a b : String) : Bool := ciEqChars a.data b.data

/-- First binding of a key in an object's field list, case-insensitive. -/
def lookupCI (key : String) : List (String × Json) → Option Json
  | [] => none
  | (k, v) :: rest => if ciEq k key then some v else lookupCI key rest

/-- First binding of a key, case-sensitive. -/
def lookupCS (key : String) : List (String × Json) → Option Json
  | [] => none
  | (k, v) :: rest => if k == key then some v else lookupCS key rest

/-- `cJSON_GetObjectItem`: case-insensitive key lookup; NULL (`none`) on a
non-object or a missing key. -/
def getObjectItem (j : Json) (key : String) : Option Json :=
  match j with
  | Json.obj fields => lookupCI key fields
  | _ => none

/-- `cJSON_GetObjectItemCaseSensitive`: exact key lookup. -/
def getObjectItemCaseSensitive (j : Json) (key : String) : Option Json :=
  match j with
  | Json.obj fields => lookupCS key fields
  | _ => none

/-- `cJSON_IsString` (false on a NULL item). -/
def cJSON_IsString : Option Json → Bool
  | some (Json.str _) => true
  | _ => false

/-- `cJSON_IsNumber` (false on a NULL item). -/
def cJSON_IsNumber : Option Json → Bool
  | some (Json.num _) => true
  | _ => false

/-- The `valueint` of a parsed number: the double truncated toward zero,
saturated at INT_MAX / INT_MIN (cJSON's parse_number). -/
def doubleToValueint (q : ℚ) : Int :=
  if mkRat 2147483647 1 ≤ q then 2147483647
  else if q ≤ mkRat (-2147483648) 1 then -2147483648
  else q.num.tdiv (q.den : Int)

/-! ## test_wifi_connection -/

/-- The environment of one `test_wifi_connection` call: the value of the
global `wifi_configured` flag when the call starts, and the elapsed time
(in ms) at which the connect attempt started by this call obtains an IP
(`none` = the network never becomes reachable: wrong password, out of range,
…).  `wifi_configured` is set by the IP_EVENT_STA_GOT_IP branch of
`wifi_event_handler` (bluetooth_provisioning.cpp:186-191) and is never reset
anywhere in the sources. -/
structure WifiEnv where
  wifi_configured : Bool
  connectDelayMs : Option Nat
deriving DecidableEq

/-- The value of the `wifi_configured` flag `elapsed` ms into the call. -/
def flagAt (env : WifiEnv) (elapsed : Nat) : Bool :=
  env.wifi_configured ||
    (match env.connectDelayMs with
     | some d => decide (d ≤ elapsed)
     | none => false)

/-- The wait loop of `test_wifi_connection` (bluetooth_provisioning.cpp:553-559):
`while (timeout > 0 && !wifi_configured) [delay 100 ms; timeout -= 100]`.
`fuel` is `timeout / 100` (initially 100); the result is the number of loop
iterations executed. -/
def testWaitGo (f : Nat → Bool) : Nat → Nat → Nat
  | 0, _ => 0
  | fuel + 1, elapsed => if f elapsed then 0 else 1 + testWaitGo f fuel (elapsed + 100)

/-- Result of one `test_wifi_connection` call. -/
structure TestResult where
  success : Bool
  iterations : Nat
  disconnected : Bool
deriving DecidableEq

/-- `test_wifi_connection` (bluetooth_provisioning.cpp:534-570): configure the
station, call `esp_wifi_connect`, poll `wifi_configured` every 100 ms for up
to 10 s, return the flag; on failure also call `esp_wifi_disconnect`. -/
def test_wifi_connection (env : WifiEnv) : TestResult :=
  let iters := testWaitGo (flagAt env) 100 0
  if flagAt env (100 * iters) then ⟨true, iters, false⟩ else ⟨false, iters, true⟩

/-! ## POST /connect handler -/

/-- Response of the connect handler: an `httpd_resp_send_err` 400 client
error, or the JSON body built at bluetooth_provisioning.cpp:360-380 with its
"success" and "message" fields. -/
inductive ConnectResponse where
  | clientError (msg : String)
  | jsonResponse (success : Bool) (message : String)
deriving DecidableEq

/-- Output of one POST /connect request: response sent, credential store
after the request, and whether a connection attempt was made. -/
structure ConnectOut where
  response : ConnectResponse
  store : Store
  attempted : Bool
deriving DecidableEq

/-- `connect_handler` (bluetooth_provisioning.cpp:314-399).  The argument
`parsed` is the `cJSON_Parse` result for the request body (`none` = no data
received or malformed JSON, both answered with a 400).  The ssid item must
satisfy `cJSON_IsString`; the password defaults to "" when absent or not a
string.  On a successful test connection the credentials are written to NVS;
on failure nothing is written. -/
def connect_handler (parsed : Option Json) (env : WifiEnv) (st : Store) : ConnectOut :=
  match parsed with
  | none => ⟨.clientError ("Invalid JSON"), st, false⟩
  | some json =>
    match getObjectItem json ("ssid") with
    | some (Json.str ssid) =>
        let password : String :=
          match getObjectItem json ("password") with
          | some (Json.str p) => p
          | _ => ""
        if (test_wifi_connection env).success then
          ⟨.jsonResponse true ("Connected successfully"), ⟨some ssid, some password⟩, true⟩
        else
          ⟨.jsonResponse false ("Connection failed"), st, true⟩
    | _ => ⟨.clientError ("Missing SSID"), st, false⟩

/-! ## cJSON formatted printing (cJSON_Print) -/

/-- Hexadecimal digit (lowercase), for cJSON's \uXXXX escapes. -/
def hexDigitChar (n : Nat) : Char := if n < 10 then Char.ofNat (48 + n) else Char.ofNat (87 + n)

/-- Four lowercase hex digits. -/
def hex4 (n : Nat) : String :=
  String.mk [hexDigitChar (n / 4096 % 16), hexDigitChar (n / 256 % 16),
             hexDigitChar (n / 16 % 16), hexDigitChar (n % 16)]

/-- cJSON's print_string_ptr escaping of one character. -/
def escapeChar (c : Char) : String :=
  if c = '"' then ("\\\"")
  else if c = '\\' then ("\\\\")
  else if c = '\x08' then ("\\b")
  else if c = '\x0c' then ("\\f")
  else if c = '\n' then ("\\n")
  else if c = '\r' then ("\\r")
  else if c = '\t' then ("\\t")
  else if c.toNat < 32 then ("\\u") ++ hex4 c.toNat
  else String.singleton c

/-- cJSON's print_string: a double-quoted, escaped string. -/
def printStr (s : String) : String :=
  ("\"") ++ String.join (s.data.map escapeChar) ++ ("\"")

/-- `n` tab characters. -/
def tabs (n : Nat) : String := String.mk (List.replicate n '\t')

/-- An atomic cJSON value as printed: a string, a number already rendered to
its digit string by cJSON's %g-style double formatting, or a boolean. -/
inductive CAtom where
  | jstr (s : String)
  | jnum (digits : String)
  | jbool (b : Bool)
deriving DecidableEq

/-- Formatted printing of an atomic value. -/
def printAtom : CAtom → String
  | .jstr s => printStr s
  | .jnum d => d
  | .jbool true => ("true")
  | .jbool false => ("false")

/-- Formatted printing of the entries of a flat object whose entries are
indented with `depth` tabs: each entry is tabs, quoted key, colon, tab, value;
non-final entries are followed by a comma; every entry ends with a newline. -/
def printFields (depth : Nat) : List (String × CAtom) → String
  | [] => ""
  | (k, v) :: rest =>
      tabs depth ++ printStr k ++ (":") ++ ("\t") ++ printAtom v
        ++ (if rest.isEmpty then ("\n") else (",\n"))
        ++ printFields depth rest

/-- `cJSON_Print` of a flat object appearing at nesting depth `depth`:
opening brace, newline, entries at depth+1, closing brace indented with
`depth` tabs. -/
def cJSON_PrintFlatObject (depth : Nat) (fields : List (String × CAtom)) : String :=
  ("\x7b\n") ++ printFields (depth + 1) fields ++ tabs depth ++ ("\x7d")

/-- cJSON's print_array for an array of flat objects: items separated by a
comma and a space (arrays do not change the indentation depth). -/
def printObjArray (depth : Nat) : List (List (String × CAtom)) → String
  | [] => ""
  | o :: rest =>
      cJSON_PrintFlatObject depth o ++ (if rest.isEmpty then "" else (", "))
        ++ printObjArray depth rest

/-! ## GET /scan handler -/

/-- One record of the radio scan: ssid, signal strength, and whether the
authmode is WIFI_AUTH_OPEN. -/
structure ApRecord where
  ssid : String
  rssi : Int
  authOpen : Bool
deriving DecidableEq

/-- The network object built for one scan record
(bluetooth_provisioning.cpp:291-297): ssid, rssi, and auth =
(authmode != WIFI_AUTH_OPEN).  cJSON renders the small integer rssi exactly,
in plain decimal. -/
def networkFields (r : ApRecord) : List (String × CAtom) :=
  [(("ssid"), CAtom.jstr r.ssid), (("rssi"), CAtom.jnum (toString r.rssi)),
   (("auth"), CAtom.jbool (!r.authOpen))]

/-- The `cJSON_Print` output of the scan document: a root object whose single
"networks" entry holds the array of network objects. -/
def cJSON_PrintScanDoc (nets : List ApRecord) : String :=
  ("\x7b\n\t") ++ printStr ("networks") ++ (":") ++ ("\t") ++ ("[")
    ++ printObjArray 1 (nets.map networkFields) ++ ("]\n\x7d")

/-- An HTTP response of the scan handler: an `httpd_resp_send_err` 500 server
error, or an HTTP-200 application/json body. -/
inductive HttpResp where
  | serverError (msg : String)
  | okJson (body : String)
deriving DecidableEq

/-- `scan_handler` (bluetooth_provisioning.cpp:249-311).  The argument is the
outcome of `esp_wifi_scan_start` + `esp_wifi_scan_get_ap_num/records`
(`none` = the scan call itself failed).  Zero networks are answered with the
literal body ["networks" : empty array] written at line 280; a non-empty list
is printed with cJSON. -/
def scan_handler : Option (List ApRecord) → HttpResp
  | none => .serverError ("Scan failed")
  | some nets =>
      if nets.isEmpty then .okJson ("\x7b\"networks\":[]\x7d")
      else .okJson (cJSON_PrintScanDoc nets)

/-! ## MQTT configuration messages -/

/-- `mqtt_config_t` (MQTTManager.hpp). -/
structure mqtt_config_t where
  record_ms : Int
  min_conf : ℚ
deriving DecidableEq

/-- `MQTTManager::handleConfigMessage` (MQTTManager.cpp:169-208): parse the
payload (`none` = malformed, dropped); extract "record_ms" and "min_conf"
independently with `cJSON_GetObjectItemCaseSensitive`; a field that is not
present as a number falls back to the hardcoded default (5000 ms, 0.75). -/
def handleConfigMessage (parsed : Option Json) : Option mqtt_config_t :=
  match parsed with
  | none => none
  | some json =>
      let record_ms : Int :=
        match getObjectItemCaseSensitive json ("record_ms") with
        | some (Json.num q) => doubleToValueint q
        | _ => 5000
      let min_conf : ℚ :=
        match getObjectItemCaseSensitive json ("min_conf") with
        | some (Json.num q) => q
        | _ => mkRat 3 4
      some ⟨record_ms, min_conf⟩

/-- The application globals updated by the config callback
(src/main.cpp:20-21). -/
structure AppConfig where
  recording_duration : Int
  detection_threshold : ℚ
deriving DecidableEq

/-- `mqtt_config_callback` (src/main.cpp:46-53): overwrite both globals with
the received configuration. -/
def mqtt_config_callback (cfg : mqtt_config_t) (_ : AppConfig) : AppConfig :=
  ⟨cfg.record_ms, cfg.min_conf⟩

/-- Effect of one message on the configuration topic on the application
globals: malformed payloads are dropped (the callback is not invoked),
otherwise the callback is invoked with the extracted configuration. -/
def onConfigMessage (parsed : Option Json) (s : AppConfig) : AppConfig :=
  match handleConfigMessage parsed with
  | none => s
  | some cfg => mqtt_config_callback cfg s

/-! ## MQTT alert publication -/

/-- `mqtt_alert_t` (MQTTManager.hpp), with the confidence kept as the digit
string produced by cJSON's double rendering. -/
structure mqtt_alert_t where
  device_id : String
  confidence_digits : String
deriving DecidableEq

/-- The byte string published on the alerts topic for an alert:
`cJSON_Print` of the object with the "id" and "conf" entries
(MQTTManager.cpp:94-98). -/
def publishAlertPayload (id digits : String) : String :=
  cJSON_PrintFlatObject 0 [(("id"), CAtom.jstr id), (("conf"), CAtom.jnum digits)]

/-- `MQTTManager::publishAlert` (MQTTManager.cpp:88-108): no-op returning
false (`none`) when not connected or no client; otherwise publish the printed
payload. -/
def publishAlert (connected hasClient : Bool) (alert : mqtt_alert_t) : Option String :=
  if !connected || !hasClient then none
  else some (publishAlertPayload alert.device_id alert.confidence_digits)

/-- `DEVICE_ID` (Config.hpp). -/
def DEVICE_ID : String := ("esp32_wwd_001")

/-! ## WiFiManager link-layer event callbacks -/

/-- The state touched by the WiFiManager callbacks: the static
`wifi_retry_count` and the two event-group bits. -/
structure WifiLinkState where
  retryCount : Nat
  connectedBit : Bool
  failBit : Bool
deriving DecidableEq

/-- The events dispatched to the two callbacks. -/
inductive WifiEvt where
  | wifiReady
  | scanDone
  | staStart
  | staStop
  | staConnected
  | staDisconnected
  | authModeChange
  | gotIp
  | lostIp
  | gotIp6
deriving DecidableEq

/-- Side effects of the callbacks that matter here: the `esp_wifi_connect`
issued on STA_START, the `esp_wifi_connect` retry issued on a disconnect, and
the failure surfaced by setting WIFI_FAIL_BIT. -/
inductive LinkAct where
  | initialConnect
  | reconnectAttempt
  | surfaceFail
deriving DecidableEq

/-- `WIFI_RETRY_ATTEMPT` (WiFiManager.cpp:10). -/
def WIFI_RETRY_ATTEMPT : Nat := 3

/-- `wifi_event_cb` (WiFiManager.cpp:49-89): on STA_DISCONNECTED, retry
`esp_wifi_connect` while `wifi_retry_count < WIFI_RETRY_ATTEMPT` (incrementing
the counter), otherwise set WIFI_FAIL_BIT. -/
def wifi_event_cb (s : WifiLinkState) : WifiEvt → WifiLinkState × List LinkAct
  | .staStart => (s, [.initialConnect])
  | .staDisconnected =>
      if s.retryCount < WIFI_RETRY_ATTEMPT then
        ({ s with retryCount := s.retryCount + 1 }, [.reconnectAttempt])
      else
        ({ s with failBit := true }, [.surfaceFail])
  | _ => (s, [])

/-- `ip_event_cb` (WiFiManager.cpp:19-47): on GOT_IP and GOT_IP6, reset
`wifi_retry_count` to 0 and set WIFI_CONNECTED_BIT; LOST_IP only logs. -/
def ip_event_cb (s : WifiLinkState) : WifiEvt → WifiLinkState × List LinkAct
  | .gotIp => ({ s with retryCount := 0, connectedBit := true }, [])
  | .gotIp6 => ({ s with retryCount := 0, connectedBit := true }, [])
  | _ => (s, [])

/-- Event dispatch as registered in `WiFiManager::initialize`
(WiFiManager.cpp:142-154): IP_EVENT events go to `ip_event_cb`, WIFI_EVENT
events to `wifi_event_cb`. -/
def linkStep (s : WifiLinkState) (e : WifiEvt) : WifiLinkState × List LinkAct :=
  match e with
  | .gotIp => ip_event_cb s e
  | .lostIp => ip_event_cb s e
  | .gotIp6 => ip_event_cb s e
  | _ => wifi_event_cb s e

/-- Run of a sequence of events, collecting the emitted actions. -/
def linkRun (s : WifiLinkState) : List WifiEvt → WifiLinkState × List LinkAct
  | [] => (s, [])
  | e :: es =>
      let step := linkStep s e
      let rest := linkRun step.1 es
      (rest.1, step.2 ++ rest.2)

/-! ## Supervisor: stored-credentials boot path (src/main.cpp) -/

/-- Result of the stored-credentials connection loop: whether it connected,
how many attempts were made, and how many 3000 ms waits were inserted between
attempts. -/
structure StoredConnectResult where
  connected : Bool
  attempts : Nat
  waits : Nat
deriving DecidableEq

/-- The retry loop of `setup_connectivity` (src/main.cpp:86-105): up to
`remaining` more attempts after `made` already made; `outcome k` is the result
of `connectWithStoredCredentials` on the k-th attempt (1-based); after a
failed attempt that is not the last, wait 3000 ms. -/
def storedConnectGo (outcome : Nat → Bool) : Nat → Nat → StoredConnectResult
  | 0, made => ⟨false, made, 0⟩
  | remaining + 1, made =>
      let a := made + 1
      if outcome a then ⟨true, a, 0⟩
      else
        let r := storedConnectGo outcome remaining a
        ⟨r.connected, r.attempts, r.waits + (if 0 < remaining then 1 else 0)⟩

/-- Credentials supplied by the operator during AP provisioning. -/
structure ProvisionEnv where
  ssid : String
  password : String
deriving DecidableEq

/-- The credential store once `start_wifi_ap_provisioning` completes: the
provisioning loop (bluetooth_provisioning.cpp:511-514) exits only after a
successful POST /connect set `wifi_configured`, and that request's handler
(connect_handler, success branch) stored the operator's ssid and password. -/
def provisionedStore (p : ProvisionEnv) : Store := ⟨some p.ssid, some p.password⟩

/-- Environment of one `setup_connectivity` call: whether
`wifi_manager.initialize()` succeeds, the outcome of each stored-credentials
connection attempt (the body of `connectWithStoredCredentials` is not present
in the sources, so it is an oracle), whether MQTT initialize+connect succeed,
and what the operator would provision. -/
structure SupervisorEnv where
  wifiInitOk : Bool
  attemptOk : Nat → Bool
  mqttOk : Bool
  provision : ProvisionEnv

/-- `setup_connectivity` (src/main.cpp:56-136): without stored credentials,
run AP provisioning (which blocks until success) and proceed to MQTT; with
stored credentials, initialize the WiFi manager and run the retry loop;
return false when the loop exhausts its 5 attempts (or the manager fails to
initialize), otherwise proceed to MQTT.  The returned store is the credential
store after the call. -/
def setup_connectivity (st : Store) (env : SupervisorEnv) : Bool × Store :=
  if has_stored_wifi st = false then
    (env.mqttOk, provisionedStore env.provision)
  else if env.wifiInitOk = false then
    (false, st)
  else if (storedConnectGo env.attemptOk 5 0).connected then
    (env.mqttOk, st)
  else
    (false, st)

/-- The externally visible actions of app_main's connectivity-failure path. -/
inductive SupAction where
  | clearStoredWifi
  | startProvisioning
  | espRestart
deriving DecidableEq

/-- The connectivity phase of `app_main` (src/main.cpp:152-164): when
`setup_connectivity` fails, clear the stored credentials, run AP provisioning
(blocking until the operator succeeds, which stores fresh credentials), and
only then restart.  Each action is paired with the credential store after it;
the second component is the store the next boot will read. -/
def app_main_connectivity (st : Store) (env : SupervisorEnv) :
    List (SupAction × Store) × Store :=
  let r := setup_connectivity st env
  if r.1 then ([], r.2)
  else
    ([(.clearStoredWifi, clear_stored_wifi r.2),
      (.startProvisioning, provisionedStore env.provision),
      (.espRestart, provisionedStore env.provision)],
     provisionedStore env.provision)

/-- The two boot paths of the supervisor (src/main.cpp:60-76): provisioning
when no usable credentials are stored, otherwise the stored-credentials
path. -/
inductive BootMode where
  | provisioning
  | connectingStored
deriving DecidableEq

/-- Which path a boot takes, as decided by `has_stored_wifi`
(src/main.cpp:60). -/
def bootMode (st : Store) : BootMode :=
  if has_stored_wifi st then .connectingStored else .provisioning

/-! ## stop_provisioning_server -/

/-- Resource releases performed by `stop_provisioning_server`. -/
inductive ServerAct where
  | httpdStop (handle : Nat)
deriving DecidableEq

/-- `stop_provisioning_server` (bluetooth_provisioning.cpp:526-532): if the
server handle is non-NULL, stop it and null the handle; otherwise do
nothing. -/
def stop_provisioning_server : Option Nat → Option Nat × List ServerAct
  | some h => (none, [ServerAct.httpdStop h])
  | none => (none, [])

/-! ## Helper lemmas -/

theorem utf8ByteSize_pos_iff (s : String) : 0 < s.utf8ByteSize ↔ s ≠ "" := by
  rcases s with ⟨data⟩
  cases data with
  | nil =>
      constructor
      · intro h
        exact absurd h (by decide)
      · intro h
        exact absurd rfl h
  | cons c cs =>
      constructor
      · intro _ heq
        exact absurd (congrArg String.data heq) (by simp)
      · intro _
        simp only [String.utf8ByteSize_mk, String.utf8Len_cons]
        have := Char.utf8Size_pos c
        omega

theorem has_stored_wifi_of_ne (s : String) (p : Option String) (h : s ≠ "") :
    has_stored_wifi ⟨some s, p⟩ = true := by
  have hpos := (utf8ByteSize_pos_iff s).mpr h
  simp only [has_stored_wifi, requiredSizeOf, decide_eq_true_eq]
  omega

theorem storedConnectGo_attempts_le (outcome : Nat → Bool) (r m : Nat) :
    (storedConnectGo outcome r m).attempts ≤ m + r := by
  induction r generalizing m with
  | zero => simp [storedConnectGo]
  | succ r ih =>
      simp only [storedConnectGo]
      by_cases h : outcome (m + 1) = true
      · rw [if_pos h]
        show m + 1 ≤ m + (r + 1)
        omega
      · rw [if_neg h]
        show (storedConnectGo outcome r (m + 1)).attempts ≤ m + (r + 1)
        have := ih (m + 1)
        omega

theorem linkStep_failBit_mono (s : WifiLinkState) (e : WifiEvt) (h : s.failBit = true) :
    (linkStep s e).1.failBit = true := by
  cases e <;> simp only [linkStep, wifi_event_cb, ip_event_cb] <;>
    first
    | exact h
    | (split <;> first | exact h | rfl)

theorem linkRun_failBit_mono (es : List WifiEvt) :
    ∀ s : WifiLinkState, s.failBit = true → (linkRun s es).1.failBit = true := by
  induction es with
  | nil => intro s h; exact h
  | cons e es ih => intro s h; exact ih _ (linkStep_failBit_mono s e h)

theorem linkRun_disc_count (n : Nat) : ∀ (k : Nat) (c f : Bool),
    ((linkRun ⟨k, c, f⟩ (List.replicate n .staDisconnected)).2.count .reconnectAttempt)
      = min n (3 - k) := by
  induction n with
  | zero => intro k c f; simp [linkRun]
  | succ n ih =>
      intro k c f
      rw [List.replicate_succ]
      simp only [linkRun]
      by_cases hk : k < 3
      · have hstep : linkStep ⟨k, c, f⟩ .staDisconnected
            = (⟨k + 1, c, f⟩, [.reconnectAttempt]) := by
          simp [linkStep, wifi_event_cb, WIFI_RETRY_ATTEMPT, hk]
        have hone : List.count LinkAct.reconnectAttempt [LinkAct.reconnectAttempt] = 1 := by
          decide
        simp only [hstep, List.count_append, ih (k + 1) c f, hone]
        omega
      · have hstep : linkStep ⟨k, c, f⟩ .staDisconnected
            = (⟨k, c, true⟩, [.surfaceFail]) := by
          simp [linkStep, wifi_event_cb, WIFI_RETRY_ATTEMPT, hk]
        simp only [hstep, List.count_append, ih k c true]
        have hzero : List.count LinkAct.reconnectAttempt [LinkAct.surfaceFail] = 0 := by decide
        simp only [hzero]
        omega

theorem linkRun_disc_failBit (n : Nat) : ∀ (k : Nat) (c f : Bool), 3 - k < n →
    (linkRun ⟨k, c, f⟩ (List.replicate n .staDisconnected)).1.failBit = true := by
  induction n with
  | zero => intro k c f h; exact absurd h (Nat.not_lt_zero _)
  | succ n ih =>
      intro k c f h
      rw [List.replicate_succ]
      simp only [linkRun]
      by_cases hk : k < 3
      · have hstep : linkStep ⟨k, c, f⟩ .staDisconnected
            = (⟨k + 1, c, f⟩, [.reconnectAttempt]) := by
          simp [linkStep, wifi_event_cb, WIFI_RETRY_ATTEMPT, hk]
        simp only [hstep]
        exact ih (k + 1) c f (by omega)
      · have hstep : linkStep ⟨k, c, f⟩ .staDisconnected
            = (⟨k, c, true⟩, [.surfaceFail]) := by
          simp [linkStep, wifi_event_cb, WIFI_RETRY_ATTEMPT, hk]
        simp only [hstep]
        exact linkRun_failBit_mono _ _ rfl

/-! ## Claim C1 -/

/-- Claim C1 (counterexample): a stored ssid of length 1 makes
`has_stored_wifi` return true — `nvs_get_str` reports two bytes (the
character plus the terminating NUL), so `required_size > 1` holds — refuting
the claim that every stored ssid of length ≤ 1 reads as unprovisioned. -/
theorem c1_short_ssid_cx :
    ("a" : String).length ≤ 1 ∧ has_stored_wifi ⟨some ("a"), some ("pw")⟩ = true := by
  constructor
  · decide
  · decide

/-- Claim C1 (amended): `has_stored_wifi` returns true exactly when a record
exists whose stored ssid is non-empty; absence of the record and an empty
ssid read as unprovisioned, but any ssid of length ≥ 1 — including a single
character — counts as provisioned, because the `required_size > 1` check
counts the terminating NUL. -/
theorem c1_has_stored_wifi_amended (st : Store) :
    has_stored_wifi st = true ↔ ∃ s, st.ssid = some s ∧ s ≠ "" := by
  rcases st with ⟨ssid, password⟩
  cases ssid with
  | none => simp [has_stored_wifi]
  | some s =>
      simp only [has_stored_wifi, requiredSizeOf, decide_eq_true_eq,
        Option.some.injEq, exists_eq_left']
      have := utf8ByteSize_pos_iff s
      constructor
      · intro h
        exact this.mp (by omega)
      · intro h
        have := this.mpr h
        omega

/-- Witness for the amended C1 theorem: a one-character ssid is reported as
provisioned. -/
theorem c1_has_stored_wifi_amended_witness :
    has_stored_wifi ⟨some ("a"), some ("pw")⟩ = true :=
  (c1_has_stored_wifi_amended ⟨some ("a"), some ("pw")⟩).mpr ⟨("a"), rfl, by decide⟩

/-! ## Claim C2 -/

/-- Claim C2 (counterexample): with the configuration previously customized
to record_ms 7000 and min_conf 0.9, a message containing only record_ms 7000
resets the detection threshold to the hardcoded default 0.75 instead of
keeping the previously in-effect 0.9. -/
theorem c2_config_defaults_cx :
    onConfigMessage (some (Json.obj [(("record_ms"), Json.num (mkRat 7000 1))]))
        ⟨7000, mkRat 9 10⟩ = ⟨7000, mkRat 3 4⟩
    ∧ mkRat 3 4 ≠ mkRat 9 10 := by
  constructor
  · decide
  · decide

/-- Claim C2 (amended): the two numeric fields are extracted independently
(never all-or-nothing) and a field present as a number is applied, but a
field that is absent or not a number is reset to the hardcoded default
(record_ms 5000, min_conf 0.75) regardless of the previously in-effect value;
the configuration resulting from a parsed message does not depend on the
prior configuration at all. -/
theorem c2_config_fields_amended (j : Json) (s₁ s₂ : AppConfig) :
    onConfigMessage (some j) s₁ = onConfigMessage (some j) s₂
    ∧ (∀ q, getObjectItemCaseSensitive j ("record_ms") = some (Json.num q) →
        (onConfigMessage (some j) s₁).recording_duration = doubleToValueint q)
    ∧ (cJSON_IsNumber (getObjectItemCaseSensitive j ("record_ms")) = false →
        (onConfigMessage (some j) s₁).recording_duration = 5000)
    ∧ (∀ q, getObjectItemCaseSensitive j ("min_conf") = some (Json.num q) →
        (onConfigMessage (some j) s₁).detection_threshold = q)
    ∧ (cJSON_IsNumber (getObjectItemCaseSensitive j ("min_conf")) = false →
        (onConfigMessage (some j) s₁).detection_threshold = mkRat 3 4) := by
  refine ⟨rfl, ?_, ?_, ?_, ?_⟩
  · intro q hq
    simp [onConfigMessage, handleConfigMessage, mqtt_config_callback, hq]
  · intro h
    cases hr : getObjectItemCaseSensitive j ("record_ms") with
    | none => simp [onConfigMessage, handleConfigMessage, mqtt_config_callback, hr]
    | some v =>
        rw [hr] at h
        cases v with
        | num q => simp [cJSON_IsNumber] at h
        | str s => simp [onConfigMessage, handleConfigMessage, mqtt_config_callback, hr]
        | boolean b => simp [onConfigMessage, handleConfigMessage, mqtt_config_callback, hr]
        | obj f => simp [onConfigMessage, handleConfigMessage, mqtt_config_callback, hr]
        | arr a => simp [onConfigMessage, handleConfigMessage, mqtt_config_callback, hr]
        | null => simp [onConfigMessage, handleConfigMessage, mqtt_config_callback, hr]
  · intro q hq
    simp [onConfigMessage, handleConfigMessage, mqtt_config_callback, hq]
  · intro h
    cases hr : getObjectItemCaseSensitive j ("min_conf") with
    | none => simp [onConfigMessage, handleConfigMessage, mqtt_config_callback, hr]
    | some v =>
        rw [hr] at h
        cases v with
        | num q => simp [cJSON_IsNumber] at h
        | str s => simp [onConfigMessage, handleConfigMessage, mqtt_config_callback, hr]
        | boolean b => simp [onConfigMessage, handleConfigMessage, mqtt_config_callback, hr]
        | obj f => simp [onConfigMessage, handleConfigMessage, mqtt_config_callback, hr]
        | arr a => simp [onConfigMessage, handleConfigMessage, mqtt_config_callback, hr]
        | null => simp [onConfigMessage, handleConfigMessage, mqtt_config_callback, hr]

/-- Witness for the amended C2 theorem at a message that omits min_conf. -/
theorem c2_config_fields_amended_witness :
    (onConfigMessage (some (Json.obj [(("record_ms"), Json.num (mkRat 7000 1))]))
        ⟨5000, mkRat 3 5⟩).detection_threshold = mkRat 3 4 :=
  (c2_config_fields_amended (Json.obj [(("record_ms"), Json.num (mkRat 7000 1))])
      ⟨5000, mkRat 3 5⟩ ⟨5000, mkRat 3 5⟩).2.2.2.2 (by decide)

/-! ## Claim C3 -/

/-- Claim C3 (confirmed): every POST /connect carrying a valid ssid whose
test connection fails leaves the credential store exactly as before the
request and answers with a JSON body whose success field is false. -/
theorem c3_failed_connect_no_write (j : Json) (env : WifiEnv) (st : Store) (s : String)
    (hssid : getObjectItem j ("ssid") = some (Json.str s))
    (hfail : (test_wifi_connection env).success = false) :
    connect_handler (some j) env st
      = ⟨.jsonResponse false ("Connection failed"), st, true⟩ := by
  simp [connect_handler, hssid, hfail]

/-- Witness for C3: a concrete request against an unreachable network. -/
theorem c3_failed_connect_no_write_witness :
    connect_handler
        (some (Json.obj [(("ssid"), Json.str ("MyNet")), (("password"), Json.str ("pw"))]))
        ⟨false, none⟩ ⟨some ("OldNet"), some ("old")⟩
      = ⟨.jsonResponse false ("Connection failed"), ⟨some ("OldNet"), some ("old")⟩, true⟩ :=
  c3_failed_connect_no_write _ ⟨false, none⟩ _ ("MyNet") rfl (by decide)

/-! ## Claim C4 -/

/-- Claim C4 (counterexample): a request whose ssid is the empty string
passes validation — a connection attempt is made and a JSON response (not a
client error) is returned — refuting the claim that the handler requires the
ssid to be a non-empty string. -/
theorem c4_empty_ssid_cx :
    connect_handler (some (Json.obj [(("ssid"), Json.str (""))])) ⟨false, none⟩ ⟨none, none⟩
      = ⟨.jsonResponse false ("Connection failed"), ⟨none, none⟩, true⟩ := by
  decide

/-- Claim C4 (amended): the handler validates only that the ssid item is a
string — which may be empty — with the password optional and defaulting to
the empty string; a malformed body or a missing/non-string ssid is answered
with a 400 client error with no connection attempt and no credential
write. -/
theorem c4_connect_validation_amended (env : WifiEnv) (st : Store) (j : Json) :
    connect_handler none env st = ⟨.clientError ("Invalid JSON"), st, false⟩
    ∧ (cJSON_IsString (getObjectItem j ("ssid")) = false →
        connect_handler (some j) env st = ⟨.clientError ("Missing SSID"), st, false⟩)
    ∧ (∀ s, getObjectItem j ("ssid") = some (Json.str s) →
        (connect_handler (some j) env st).attempted = true)
    ∧ (∀ s, getObjectItem j ("ssid") = some (Json.str s) →
        cJSON_IsString (getObjectItem j ("password")) = false →
        (test_wifi_connection env).success = true →
        connect_handler (some j) env st
          = ⟨.jsonResponse true ("Connected successfully"), ⟨some s, some ("")⟩, true⟩) := by
  refine ⟨rfl, ?_, ?_, ?_⟩
  · intro h
    cases hg : getObjectItem j ("ssid") with
    | none => simp [connect_handler, hg]
    | some v =>
        rw [hg] at h
        cases v with
        | str s => simp [cJSON_IsString] at h
        | num q => simp [connect_handler, hg]
        | boolean b => simp [connect_handler, hg]
        | obj f => simp [connect_handler, hg]
        | arr a => simp [connect_handler, hg]
        | null => simp [connect_handler, hg]
  · intro s hg
    by_cases ht : (test_wifi_connection env).success = true
    · simp [connect_handler, hg, ht]
    · simp [connect_handler, hg, ht]
  · intro s hg hp ht
    cases hpw : getObjectItem j ("password") with
    | none => simp [connect_handler, hg, hpw, ht]
    | some w =>
        rw [hpw] at hp
        cases w with
        | str p => simp [cJSON_IsString] at hp
        | num q => simp [connect_handler, hg, hpw, ht]
        | boolean b => simp [connect_handler, hg, hpw, ht]
        | obj f => simp [connect_handler, hg, hpw, ht]
        | arr a => simp [connect_handler, hg, hpw, ht]
        | null => simp [connect_handler, hg, hpw, ht]

/-- Witness for the amended C4 theorem: a body without any ssid is answered
with the 400 "Missing SSID" error, no attempt, no write. -/
theorem c4_connect_validation_amended_witness :
    connect_handler (some (Json.obj [])) ⟨false, none⟩ ⟨none, none⟩
      = ⟨.clientError ("Missing SSID"), ⟨none, none⟩, false⟩ :=
  (c4_connect_validation_amended ⟨false, none⟩ ⟨none, none⟩ (Json.obj [])).2.1 (by decide)

/-! ## Claim C5 -/

/-- Claim C5 (confirmed): a GET /scan on which the radio scan succeeds with
zero networks is answered with HTTP success and the exact body
\x7b"networks":[]\x7d, and a server error is produced only when the
underlying scan call itself fails. -/
theorem c5_scan_zero_networks :
    scan_handler (some []) = .okJson ("\x7b\"networks\":[]\x7d")
    ∧ ∀ (r : Option (List ApRecord)) (m : String),
        scan_handler r = .serverError m → r = none := by
  refine ⟨rfl, ?_⟩
  intro r m h
  cases r with
  | none => rfl
  | some nets => cases nets <;> simp [scan_handler] at h

/-- Witness for C5: the only server-error case is a failed scan call. -/
theorem c5_scan_zero_networks_witness :
    (none : Option (List ApRecord)) = none :=
  c5_scan_zero_networks.2 none ("Scan failed") rfl

/-! ## Claim C6 -/

/-- Claim C6 (counterexample): even if cJSON rendered the confidence value as
the digits 0.87, the payload published for device esp32_wwd_001 — produced by
`cJSON_Print`, the formatted printer — differs from the compact byte string
of the claim. -/
theorem c6_alert_payload_cx :
    publishAlert true true ⟨DEVICE_ID, ("0.87")⟩
      ≠ some ("\x7b\"id\":\"esp32_wwd_001\",\"conf\":0.87\x7d") := by
  decide

/-- Claim C6 (amended): the alert for device esp32_wwd_001 serializes as
`cJSON_Print`'s formatted output — a newline after the opening brace, a tab
before each key, a tab after each colon, and a newline before the closing
brace; with the confidence rendered as 0.87 the exact bytes are
"\x7b" LF TAB "id": TAB "esp32_wwd_001", LF TAB "conf": TAB 0.87 LF "\x7d"
(cJSON's %g rendering of the float value 0.87 need not even be the digit
string 0.87). -/
theorem c6_alert_payload_amended :
    publishAlert true true ⟨DEVICE_ID, ("0.87")⟩
      = some ("\x7b\n\t\"id\":\t\"esp32_wwd_001\",\n\t\"conf\":\t0.87\n\x7d") := by
  decide

/-! ## Claim C7 -/

/-- Claim C7 (counterexample): with stored credentials, five failing
attempts, and an operator who then provisions fresh credentials, app_main
clears the store but runs AP provisioning before restarting; the boot after
the restart reads the freshly provisioned credentials and takes the
stored-credentials path, not Provisioning. -/
theorem c7_exhaustion_cx :
    ((app_main_connectivity ⟨some ("OldNet"), some ("old")⟩
        ⟨true, fun _ => false, true, ⟨("NewNet"), ("new")⟩⟩).1.map Prod.fst
      = [SupAction.clearStoredWifi, SupAction.startProvisioning, SupAction.espRestart])
    ∧ bootMode (app_main_connectivity ⟨some ("OldNet"), some ("old")⟩
        ⟨true, fun _ => false, true, ⟨("NewNet"), ("new")⟩⟩).2 = BootMode.connectingStored
    ∧ BootMode.connectingStored ≠ BootMode.provisioning := by
  decide

/-- Claim C7 (amended): the stored-credentials path makes at most 5 attempts,
with a 3 s wait between consecutive attempts (4 waits when all 5 fail); on
exhaustion the supervisor clears the stored credentials, but it then starts
AP provisioning in the same boot and restarts only after provisioning has
completed, so the boot following the restart reads the freshly provisioned
credentials and enters ConnectingStored, not Provisioning. -/
theorem c7_stored_retry_amended (st : Store) (env : SupervisorEnv)
    (hstored : has_stored_wifi st = true)
    (hinit : env.wifiInitOk = true)
    (hfail : ∀ k, env.attemptOk k = false)
    (hssid : env.provision.ssid ≠ "") :
    (∀ f : Nat → Bool, (storedConnectGo f 5 0).attempts ≤ 5)
    ∧ storedConnectGo env.attemptOk 5 0 = ⟨false, 5, 4⟩
    ∧ (app_main_connectivity st env).1
        = [(.clearStoredWifi, ⟨none, none⟩),
           (.startProvisioning, provisionedStore env.provision),
           (.espRestart, provisionedStore env.provision)]
    ∧ bootMode (app_main_connectivity st env).2 = .connectingStored := by
  have hfn : env.attemptOk = fun _ => false := funext hfail
  have hloop : storedConnectGo env.attemptOk 5 0 = ⟨false, 5, 4⟩ := by
    rw [hfn]; decide
  have hsetup : setup_connectivity st env = (false, st) := by
    simp [setup_connectivity, hstored, hinit, hloop]
  refine ⟨?_, hloop, ?_, ?_⟩
  · intro f
    have := storedConnectGo_attempts_le f 5 0
    omega
  · simp [app_main_connectivity, hsetup, clear_stored_wifi]
  · have hprov : has_stored_wifi (provisionedStore env.provision) = true :=
      has_stored_wifi_of_ne env.provision.ssid (some env.provision.password) hssid
    simp [app_main_connectivity, hsetup, bootMode, provisionedStore] at hprov ⊢
    simp [hprov]

/-- Witness for the amended C7 theorem at a concrete all-failing
environment. -/
theorem c7_stored_retry_amended_witness :
    storedConnectGo (fun _ => false) 5 0 = ⟨false, 5, 4⟩
    ∧ bootMode (app_main_connectivity ⟨some ("OldNet"), some ("old")⟩
        ⟨true, fun _ => false, true, ⟨("NewNet"), ("new")⟩⟩).2 = .connectingStored :=
  ⟨(c7_stored_retry_amended ⟨some ("OldNet"), some ("old")⟩
      ⟨true, fun _ => false, true, ⟨("NewNet"), ("new")⟩⟩
      (by decide) rfl (fun _ => rfl) (by decide)).2.1,
   (c7_stored_retry_amended ⟨some ("OldNet"), some ("old")⟩
      ⟨true, fun _ => false, true, ⟨("NewNet"), ("new")⟩⟩
      (by decide) rfl (fun _ => rfl) (by decide)).2.2.2⟩

/-! ## Claim C8 -/

/-- Claim C8 (confirmed): from a reset retry counter, any run of consecutive
station-disconnect events produces at most WIFI_RETRY_ATTEMPT (= 3) low-level
reconnect attempts; once more than 3 disconnects arrive, the failure bit
observed by the waiting connect call is set; and the retry counter decreases
(is reset) only on the IP-obtained events GOT_IP and GOT_IP6. -/
theorem c8_bounded_link_retries :
    (∀ (n : Nat) (c f : Bool),
        ((linkRun ⟨0, c, f⟩ (List.replicate n .staDisconnected)).2.count .reconnectAttempt
            ≤ WIFI_RETRY_ATTEMPT)
        ∧ (WIFI_RETRY_ATTEMPT < n →
            (linkRun ⟨0, c, f⟩ (List.replicate n .staDisconnected)).1.failBit = true))
    ∧ (∀ (s : WifiLinkState) (e : WifiEvt),
        (linkStep s e).1.retryCount < s.retryCount → e = .gotIp ∨ e = .gotIp6) := by
  constructor
  · intro n c f
    constructor
    · have := linkRun_disc_count n 0 c f
      simp only [WIFI_RETRY_ATTEMPT]
      omega
    · intro h
      simp only [WIFI_RETRY_ATTEMPT] at h
      exact linkRun_disc_failBit n 0 c f (by omega)
  · intro s e h
    cases e with
    | gotIp => exact Or.inl rfl
    | gotIp6 => exact Or.inr rfl
    | staDisconnected =>
        exfalso
        simp only [linkStep, wifi_event_cb] at h
        split at h <;> simp at h
    | wifiReady => exact absurd h (by simp [linkStep, wifi_event_cb])
    | scanDone => exact absurd h (by simp [linkStep, wifi_event_cb])
    | staStart => exact absurd h (by simp [linkStep, wifi_event_cb])
    | staStop => exact absurd h (by simp [linkStep, wifi_event_cb])
    | staConnected => exact absurd h (by simp [linkStep, wifi_event_cb])
    | authModeChange => exact absurd h (by simp [linkStep, wifi_event_cb])
    | lostIp => exact absurd h (by simp [linkStep, ip_event_cb])

/-- Witness for C8: four consecutive disconnects surface the failure bit, and
the GOT_IP event resets a non-zero counter. -/
theorem c8_bounded_link_retries_witness :
    (linkRun ⟨0, false, false⟩ (List.replicate 4 .staDisconnected)).1.failBit = true
    ∧ (WifiEvt.gotIp = WifiEvt.gotIp ∨ WifiEvt.gotIp = WifiEvt.gotIp6) :=
  ⟨(c8_bounded_link_retries.1 4 false false).2 (by decide),
   c8_bounded_link_retries.2 ⟨2, false, false⟩ .gotIp (by decide)⟩

/-! ## Claim C9 -/

/-- Claim C9 (confirmed): stopping the captive portal server is idempotent —
the handle is null after the first call, so a second call is a no-op that
produces no error and releases nothing, and two consecutive calls release
exactly what one call releases. -/
theorem c9_stop_idempotent (s : Option Nat) :
    (stop_provisioning_server s).1 = none
    ∧ stop_provisioning_server (stop_provisioning_server s).1 = (none, [])
    ∧ (stop_provisioning_server s).2
        ++ (stop_provisioning_server (stop_provisioning_server s).1).2
        = (stop_provisioning_server s).2 := by
  cases s <;> simp [stop_provisioning_server]

/-! ## Claim C10 -/

/-- Claim C10 (confirmed, implicit behaviour): once the global wifi_configured
flag is already true, a POST /connect with any string ssid succeeds
immediately — the wait loop of test_wifi_connection performs zero iterations
because the flag is already set — and the handler reports success and
persists the supplied ssid/password, even in an environment where the
requested network never becomes reachable (connect delay `none`). -/
theorem c10_flag_short_circuits (d : Option Nat) (st : Store) (s p : String) :
    (test_wifi_connection ⟨true, d⟩).iterations = 0
    ∧ (test_wifi_connection ⟨true, d⟩).success = true
    ∧ connect_handler
        (some (Json.obj [(("ssid"), Json.str s), (("password"), Json.str p)]))
        ⟨true, d⟩ st
        = ⟨.jsonResponse true ("Connected successfully"), ⟨some s, some p⟩, true⟩ :=
  ⟨rfl, rfl, rfl⟩

end WWD
